import Mathlib

/-!
# Run lifecycle of `pkg/exec/runner_implementation.go`

A shallow embedding of `defaultRunnerImplementation` (`CreateRun`, `Execute`,
`Snapshot`, `WriteAttestation`).  Go pointers to a `Run` become explicit state
passing: every operation takes the `Run` and the history of external calls made
so far and returns the updated `Run` and the extended history.  External
collaborators (`os.Getwd`, `time.Now`, the child process, `os.CreateTemp`,
watchers, the attestation writer, the loggers) are oracles whose answer may
depend on the whole history of calls; every call is appended to the history
together with the failure it returned, if any.
-/

namespace Tejolote

/-! ## Go errors -/

/-- A Go `error` value: either an opaque error produced by a collaborator, or
an error built by `fmt.Errorf(context + "%w", cause)`. -/
inductive GoError where
  | base (msg : String)
  | wrapped (context : String) (cause : GoError)
deriving DecidableEq, Repr

/-- The call `fmt.Errorf(context + "%w", cause)`. -/
def Errorf (context : String) (cause : GoError) : GoError :=
  GoError.wrapped context cause

/-- The method `err.Error()`: the message, context first. -/
def GoError.Error : GoError → String
  | GoError.base msg => msg
  | GoError.wrapped context cause => context ++ cause.Error

/-- The function `errors.Unwrap(err)`. -/
def GoError.Unwrap : GoError → Option GoError
  | GoError.base _ => none
  | GoError.wrapped _ cause => some cause

/-! ## Data model -/

/-- A reading of `time.Now()`. -/
abbrev Time := Nat

/-- The type `command.Command` as built by `command.NewWithWorkDir`. -/
structure Command where
  workDir : String
  cmd : String
  args : List String
deriving DecidableEq, Repr

/-- The function `command.NewWithWorkDir(workDir, cmd, args...)`. -/
def NewWithWorkDir (workDir cmd : String) (args : List String) : Command :=
  { workDir := workDir, cmd := cmd, args := args }

/-- The type `command.Stream`: captured standard output and standard error. -/
structure Stream where
  Output : String
  Error : String
deriving DecidableEq, Repr

/-- The type `command.Status`; `command.Status{}` is its zero value. -/
structure Status where
  waitStatus : Nat
  stream : Option Stream
deriving DecidableEq, Repr

/-- The type `watcher.Artifact`. -/
structure Artifact where
  Path : String
  Checksum : List (String × String)
  Time : Time
deriving DecidableEq, Repr

/-- The type `RunEnvironment`. -/
structure RunEnvironment where
  Directory : String
  Variables : List (String × String)
deriving DecidableEq, Repr

/-- The type `Run`, with the fields `CreateRun` and `Execute` touch. -/
structure Run where
  Executable : Command
  ExitCode : Int
  Artifacts : List Artifact
  Output : Stream
  Status : Status
  Command : String
  Params : List String
  StartTime : Time
  EndTime : Time
  Environment : RunEnvironment
deriving DecidableEq, Repr

/-- The interface `Step`: the two getters `CreateRun` reads. -/
structure Step where
  Command : String
  Params : List String
deriving DecidableEq, Repr

/-- The fields of `Options` the runner reads.  `Options.Logger` is the sink the
`Infof` and `Debugf` calls of the history go to. -/
structure Options where
  CWD : String
  Verbose : Bool
  AttestationPath : String
deriving DecidableEq, Repr

/-- The part of `os.File` the runner reads: `f.Name()`. -/
structure File where
  Name : String
deriving DecidableEq, Repr

/-! ## External calls and their history -/

/-- One call to an external collaborator. -/
inductive Call where
  | Getwd
  | Infof (msg : String)
  | Debugf (msg : String)
  | LogrusInfo (out : Stream)
  | Now
  | RunSuccessOutput (exe : Command)
  | RunSilentSuccessOutput (exe : Command)
  | Snap (i : Nat)
  | CreateTemp (dir pat : String)
  | WriteAttestation (path : String)
deriving DecidableEq, Repr

/-- A call together with the error it returned (`none` for `nil`, and for the
calls that return no error at all). -/
structure Event where
  call : Call
  failure : Option GoError
deriving DecidableEq, Repr

/-- The external calls made so far, oldest first. -/
abbrev History := List Event

/-- Append one call and its outcome to the history. -/
def record (h : History) (call : Call) (failure : Option GoError) : History :=
  h ++ [{ call := call, failure := failure }]

/-- The events of `h2` that were made after `h1`. -/
def since (h1 h2 : History) : List Event :=
  h2.drop h1.length

/-- Whether the call runs the command. -/
def Call.isRun : Call → Bool
  | Call.RunSuccessOutput _ => true
  | Call.RunSilentSuccessOutput _ => true
  | _ => false

/-- Number of times `snap()` of the watcher at position `j` was invoked. -/
def snapCalls (t : List Event) (j : Nat) : Nat :=
  t.countP (fun e => decide (e.call = Call.Snap j))

/-- The paths handed to the attestation writer, in call order. -/
def writerPaths : List Event → List String
  | [] => []
  | e :: t =>
    match e.call with
    | Call.WriteAttestation path => path :: writerPaths t
    | _ => writerPaths t

/-- The `(dir, pattern)` arguments of the `os.CreateTemp` calls, in call order. -/
def tempCreations : List Event → List (String × String)
  | [] => []
  | e :: t =>
    match e.call with
    | Call.CreateTemp dir pat => (dir, pat) :: tempCreations t
    | _ => tempCreations t

/-- What the child process did: it could not be started, or it ran to
completion with an exit status and its captured output. -/
inductive ProcessResult where
  | startFailed (cause : GoError)
  | exited (status : Int) (out : Stream)
deriving DecidableEq, Repr

/-- The command failed: it could not start or exited non-zero. -/
def ProcessResult.failed : ProcessResult → Bool
  | ProcessResult.startFailed _ => true
  | ProcessResult.exited status _ => decide (status ≠ 0)

/-- The external collaborators of the runner.  Each answer may depend on the
history of calls made before it. -/
structure Collaborators where
  /-- The call `os.Getwd()`. -/
  Getwd : History → Except GoError String
  /-- The call `time.Now()`. -/
  Now : History → Time
  /-- The child process of `command.Command`; the flag is the verbose mode. -/
  Process : History → Command → Bool → ProcessResult
  /-- The call `os.CreateTemp(dir, pattern)`. -/
  CreateTemp : History → String → String → Except GoError File
  /-- Modelled from the spec: the method `(*Run).WriteAttestation(path)` of
  `pkg/exec`, whose body is not part of the source under study.  The spec gives
  it the contract `write(run, destinationPath) -> fails with IOError` and says
  the Run is read by it. -/
  WriteAttestation : History → Run → String → Option GoError

/-- The interface `watcher.Watcher`: the method `Snap()`. -/
structure Watcher where
  Snap : History → Option GoError

/-- The clock never goes back as the history grows. -/
def NonDecreasing (now : History → Time) : Prop :=
  ∀ h more : List Event, now h ≤ now (h ++ more)

/-- The string `c.String()` of a `command.Command`. -/
def Command.String (c : Command) : String :=
  String.intercalate " " (c.cmd :: c.args)

/-- The success filter shared by `RunSuccessOutput` and
`RunSilentSuccessOutput` of the external package
`sigs.k8s.io/release-utils/command`, after the contract the spec gives the
command execution primitive (`run(...) -> (output, exitStatus), fails with
ExecutionError`; a non-zero status yields an error): the output when the
process exited with status zero, the start failure when it could not start,
and an error of the package when it exited non-zero. -/
def successOutput (exe : Command) : ProcessResult → Except GoError Stream
  | ProcessResult.startFailed cause => Except.error cause
  | ProcessResult.exited status out =>
    if status = 0 then Except.ok out
    else Except.error
      (GoError.base ("command " ++ exe.String ++ " did not succeed: " ++ out.Error))

/-- The error of an `Except`, as Go's `err` return value. -/
def errorOf {α : Type} : Except GoError α → Option GoError
  | Except.error e => some e
  | Except.ok _ => none

/-- The call `exe.RunSuccessOutput()` (verbose mode). -/
def RunSuccessOutput (c : Collaborators) (exe : Command) (h : History) :
    Except GoError Stream × History :=
  let res := successOutput exe (c.Process h exe true)
  (res, record h (Call.RunSuccessOutput exe) (errorOf res))

/-- The call `exe.RunSilentSuccessOutput()` (silent mode). -/
def RunSilentSuccessOutput (c : Collaborators) (exe : Command) (h : History) :
    Except GoError Stream × History :=
  let res := successOutput exe (c.Process h exe false)
  (res, record h (Call.RunSilentSuccessOutput exe) (errorOf res))

/-! ## The four operations of `defaultRunnerImplementation` -/

/-- The method `CreateRun(opts, step)`. -/
def CreateRun (c : Collaborators) (opts : Options) (step : Step) (h : History) :
    Except GoError Run × History :=
  let resolved : Except GoError String × History :=
    if opts.CWD = "" then
      match c.Getwd h with
      | Except.error err =>
        (Except.error (Errorf "getting current directory: " err),
          record h Call.Getwd (some err))
      | Except.ok dir => (Except.ok dir, record h Call.Getwd none)
    else (Except.ok opts.CWD, h)
  match resolved with
  | (Except.error err, h1) => (Except.error err, h1)
  | (Except.ok cwd, h1) =>
    let cmd := NewWithWorkDir cwd step.Command step.Params
    let run : Run :=
      { Executable := cmd
        ExitCode := 0
        Artifacts := []
        Output := { Output := "", Error := "" }
        Status := { waitStatus := 0, stream := none }
        Command := step.Command
        Params := step.Params
        StartTime := 0
        EndTime := 0
        Environment := { Directory := cwd, Variables := [] } }
    let h2 := record h1
      (Call.Infof ("Executing command: " ++ step.Command ++ " " ++
        String.intercalate " " step.Params)) none
    (Except.ok run, h2)

/-- The method `Execute(opts, run)`. -/
def Execute (c : Collaborators) (opts : Options) (run : Run) (h : History) :
    Option GoError × Run × History :=
  let run1 := { run with StartTime := c.Now h }
  let h1 := record h Call.Now none
  let ran :=
    if opts.Verbose then RunSuccessOutput c run1.Executable h1
    else RunSilentSuccessOutput c run1.Executable h1
  let run2 := { run1 with EndTime := c.Now ran.2 }
  let h2 := record ran.2 Call.Now none
  match ran.1 with
  | Except.error err => (some (Errorf "executing run: " err), run2, h2)
  | Except.ok output =>
    let run3 := { run2 with Output := output }
    let h3 := if opts.Verbose then record h2 (Call.LogrusInfo run3.Output) none else h2
    (none, run3, h3)

/-- The loop of `Snapshot`: `i` is the index of the first watcher of `ws`. -/
def snapshotFrom : List Watcher → Nat → History → Option GoError × History
  | [], _, h => (none, h)
  | w :: rest, i, h =>
    match w.Snap h with
    | some err =>
      (some (Errorf "snapshotting watcher: " err), record h (Call.Snap i) (some err))
    | none => snapshotFrom rest (i + 1) (record h (Call.Snap i) none)

/-- The method `Snapshot(opts, watchers)`. -/
def Snapshot (_opts : Options) (watchers : List Watcher) (h : History) :
    Option GoError × History :=
  snapshotFrom watchers 0 h

/-- The method `WriteAttestation(opts, run)` of the runner. -/
def WriteAttestation (c : Collaborators) (opts : Options) (run : Run) (h : History) :
    Option GoError × Run × History :=
  let resolved : Except GoError String × History :=
    if opts.AttestationPath = "" then
      match c.CreateTemp h "" "provenance-*.json" with
      | Except.error err =>
        (Except.error (Errorf "creating temp file to write attestation: " err),
          record h (Call.CreateTemp "" "provenance-*.json") (some err))
      | Except.ok f =>
        (Except.ok f.Name,
          record (record h (Call.CreateTemp "" "provenance-*.json") none)
            (Call.Debugf ("Writing attestation to temp file: " ++ f.Name)) none)
    else (Except.ok opts.AttestationPath, h)
  match resolved with
  | (Except.error err, h1) => (some err, run, h1)
  | (Except.ok path, h1) =>
    match c.WriteAttestation h1 run path with
    | some err =>
      (some (Errorf "writing attestation path: " err), run,
        record h1 (Call.WriteAttestation path) (some err))
    | none =>
      (none, run,
        record (record h1 (Call.WriteAttestation path) none)
          (Call.Infof ("Wrote provenance attestation to " ++ path)) none)

/-! ## Vocabulary of the statements -/

/-- The events of `n` successful `snap()` calls on the watchers at positions
`i`, `i + 1`, ..., `i + n - 1`, in that order. -/
def okSnapsFrom : Nat → Nat → List Event
  | _, 0 => []
  | i, n + 1 => { call := Call.Snap i, failure := none } :: okSnapsFrom (i + 1) n

/-- The events of successful `snap()` calls on the first `n` watchers. -/
def okSnaps (n : Nat) : List Event :=
  okSnapsFrom 0 n

/-- Number of events that returned an error. -/
def failures (t : List Event) : Nat :=
  t.countP (fun e => e.failure.isSome)

/-- Number of events that made the given call. -/
def callCount (t : List Event) (call : Call) : Nat :=
  t.countP (fun e => decide (e.call = call))

/-- The context each phase puts in front of the error of a collaborator: the
string of its `fmt.Errorf` call.  The clock and the loggers return no error. -/
def errorContext : Call → Option String
  | Call.Getwd => some "getting current directory: "
  | Call.RunSuccessOutput _ => some "executing run: "
  | Call.RunSilentSuccessOutput _ => some "executing run: "
  | Call.Snap _ => some "snapshotting watcher: "
  | Call.CreateTemp _ _ => some "creating temp file to write attestation: "
  | Call.WriteAttestation _ => some "writing attestation path: "
  | _ => none

/-- A phase that made the calls `t` and returned `res` propagates failures:
it returns an error exactly when one of its calls failed, the error wraps the
cause of a failed call with the context of that call, the failed call was made
once, and no other call failed. -/
def Propagates (t : List Event) (res : Option GoError) : Prop :=
  (res.isSome ↔ ∃ e ∈ t, e.failure.isSome) ∧
  ∀ err, res = some err →
    ∃ ev cause context, ev ∈ t ∧ ev.failure = some cause ∧
      errorContext ev.call = some context ∧ err = Errorf context cause ∧
      callCount t ev.call = 1 ∧ failures t = 1

/-! ## Concrete collaborators used by the examples -/

/-- A failure of the underlying system. -/
def ioFailure : GoError := GoError.base "permission denied"

/-- A well-behaved world: the ambient directory is `/work`, the clock is the
number of calls made so far, `true` exits 0 and every other command exits 1. -/
def friendly : Collaborators where
  Getwd := fun _ => Except.ok "/work"
  Now := fun h => h.length
  Process := fun _ exe _ =>
    if exe.cmd = "true" then ProcessResult.exited 0 { Output := "done", Error := "" }
    else ProcessResult.exited 1 { Output := "", Error := "boom" }
  CreateTemp := fun _ _ _ => Except.ok { Name := "/tmp/provenance-1.json" }
  WriteAttestation := fun _ _ _ => none

/-- A hostile world: no ambient directory, no temporary files, no process can
be started and the attestation cannot be written. -/
def hostile : Collaborators where
  Getwd := fun _ => Except.error ioFailure
  Now := fun h => h.length
  Process := fun _ _ _ => ProcessResult.startFailed ioFailure
  CreateTemp := fun _ _ _ => Except.error ioFailure
  WriteAttestation := fun _ _ _ => some ioFailure

/-- A watcher whose snapshot always works. -/
def okWatcher : Watcher := { Snap := fun _ => none }

/-- A watcher whose snapshot always fails with `ioFailure`. -/
def badWatcher : Watcher := { Snap := fun _ => some ioFailure }

/-- The step `echo hello`. -/
def echoStep : Step := { Command := "echo", Params := ["hello"] }

/-- The step `true`. -/
def trueStep : Step := { Command := "true", Params := [] }

/-- Options with everything left at its zero value. -/
def plainOpts : Options := { CWD := "", Verbose := false, AttestationPath := "" }

/-- Options with an explicit working directory and attestation path. -/
def explicitOpts : Options :=
  { CWD := "/some/dir", Verbose := true, AttestationPath := "/out/att.json" }

/-- The run `CreateRun` builds for a step in a directory. -/
def runOf (step : Step) (dir : String) : Run :=
  { Executable := NewWithWorkDir dir step.Command step.Params
    ExitCode := 0
    Artifacts := []
    Output := { Output := "", Error := "" }
    Status := { waitStatus := 0, stream := none }
    Command := step.Command
    Params := step.Params
    StartTime := 0
    EndTime := 0
    Environment := { Directory := dir, Variables := [] } }

/-! ## Basic facts about histories -/

theorem since_append (h more : List Event) : since h (h ++ more) = more := by
  simp [since]

theorem since_record (h : History) (call : Call) (failure : Option GoError) :
    since h (record h call failure) = [{ call := call, failure := failure }] := by
  simp [since, record]

/-! ## CreateRun -/

/-- C1: whenever `CreateRun` succeeds, the Run it returns has the step's
command and parameters, exit code 0, no artifacts and no environment
variables, and none of the calls it made runs the command. -/
theorem CreateRun_initial_run (c : Collaborators) (opts : Options) (step : Step)
    (h : History) (run : Run) (h2 : History)
    (hok : CreateRun c opts step h = (Except.ok run, h2)) :
    run.Command = step.Command ∧ run.Params = step.Params ∧ run.ExitCode = 0 ∧
    run.Artifacts = [] ∧ run.Environment.Variables = [] ∧
    ∀ e ∈ since h h2, e.call.isRun = false := by
  unfold CreateRun at hok
  by_cases hcwd : opts.CWD = ""
  · cases hg : c.Getwd h with
    | error err => simp [hcwd, hg] at hok
    | ok dir =>
      simp only [hcwd, hg, if_true, Prod.mk.injEq, Except.ok.injEq] at hok
      obtain ⟨rfl, rfl⟩ := hok
      simp [since, record, Call.isRun]
  · simp only [hcwd, if_false, Prod.mk.injEq, Except.ok.injEq] at hok
    obtain ⟨rfl, rfl⟩ := hok
    simp [since, record, Call.isRun]

/-- Witness of C1: the step `echo hello` in the friendly world. -/
theorem CreateRun_initial_run_witness :
    CreateRun friendly plainOpts echoStep [] =
      (Except.ok (runOf echoStep "/work"),
        [{ call := Call.Getwd, failure := none },
         { call := Call.Infof "Executing command: echo hello", failure := none }]) ∧
    ((runOf echoStep "/work").Command = echoStep.Command ∧
      (runOf echoStep "/work").Params = echoStep.Params ∧
      (runOf echoStep "/work").ExitCode = 0 ∧
      (runOf echoStep "/work").Artifacts = [] ∧
      (runOf echoStep "/work").Environment.Variables = [] ∧
      ∀ e ∈ since []
          [{ call := Call.Getwd, failure := none },
           { call := Call.Infof "Executing command: echo hello", failure := none }],
        e.call.isRun = false) :=
  ⟨rfl, CreateRun_initial_run friendly plainOpts echoStep [] _ _ rfl⟩

/-- C7: with a non-empty `opts.CWD` the Run and its executable use that
directory, `os.Getwd` is never called and `CreateRun` succeeds whatever the
ambient directory is; with an empty `opts.CWD` the directory is the ambient one,
and `CreateRun` fails exactly when `os.Getwd` fails. -/
theorem CreateRun_working_directory (c : Collaborators) (opts : Options) (step : Step)
    (h : History) :
    (opts.CWD ≠ "" →
      ∃ run, (CreateRun c opts step h).1 = Except.ok run ∧
        run.Environment.Directory = opts.CWD ∧ run.Executable.workDir = opts.CWD ∧
        ∀ e ∈ since h (CreateRun c opts step h).2, e.call ≠ Call.Getwd) ∧
    (opts.CWD = "" →
      (∀ dir, c.Getwd h = Except.ok dir →
        ∃ run, (CreateRun c opts step h).1 = Except.ok run ∧
          run.Environment.Directory = dir ∧ run.Executable.workDir = dir) ∧
      (∀ err, c.Getwd h = Except.error err →
        (CreateRun c opts step h).1 =
          Except.error (Errorf "getting current directory: " err)) ∧
      ((errorOf (CreateRun c opts step h).1).isSome ↔ (errorOf (c.Getwd h)).isSome)) := by
  constructor
  · intro hcwd
    simp [CreateRun, hcwd, since, record, NewWithWorkDir]
  · intro hcwd
    cases hg : c.Getwd h with
    | error err => simp [CreateRun, hcwd, hg, errorOf]
    | ok dir => simp [CreateRun, hcwd, hg, errorOf, NewWithWorkDir]

/-- Witness of C7: an explicit directory in a world without ambient directory,
and no explicit directory in the friendly and in the hostile world. -/
theorem CreateRun_working_directory_witness :
    (∃ run, (CreateRun hostile explicitOpts echoStep []).1 = Except.ok run ∧
        run.Environment.Directory = "/some/dir" ∧ run.Executable.workDir = "/some/dir" ∧
        ∀ e ∈ since [] (CreateRun hostile explicitOpts echoStep []).2, e.call ≠ Call.Getwd) ∧
    (∃ run, (CreateRun friendly plainOpts echoStep []).1 = Except.ok run ∧
        run.Environment.Directory = "/work" ∧ run.Executable.workDir = "/work") ∧
    (CreateRun hostile plainOpts echoStep []).1 =
      Except.error (Errorf "getting current directory: " ioFailure) :=
  ⟨(CreateRun_working_directory hostile explicitOpts echoStep []).1 (by decide),
   ((CreateRun_working_directory friendly plainOpts echoStep []).2 rfl).1 "/work" rfl,
   ((CreateRun_working_directory hostile plainOpts echoStep []).2 rfl).2.1 ioFailure rfl⟩

/-! ## Execute -/

/-- The history of `Execute`: clock, command, clock, and in verbose mode on
success one log line. -/
theorem Execute_history (c : Collaborators) (opts : Options) (run : Run) (h : History) :
    ∃ ev rest, ev.call.isRun = true ∧ (∀ e ∈ rest, e.call.isRun = false) ∧
      (∀ e ∈ rest, e.failure = none) ∧
      (ev.failure.isSome ↔ (Execute c opts run h).1.isSome) ∧
      (∀ err, (Execute c opts run h).1 = some err →
        ∃ cause, ev.failure = some cause ∧ err = Errorf "executing run: " cause) ∧
      (Execute c opts run h).2.2 =
        h ++ ({ call := Call.Now, failure := none } :: ev ::
          { call := Call.Now, failure := none } :: rest) ∧
      (Execute c opts run h).2.1.StartTime = c.Now h ∧
      (Execute c opts run h).2.1.EndTime =
        c.Now (h ++ [{ call := Call.Now, failure := none }, ev]) := by
  cases hv : opts.Verbose with
  | true =>
    cases hp : successOutput run.Executable
        (c.Process (h ++ [{ call := Call.Now, failure := none }]) run.Executable true) with
    | error err =>
      exact ⟨{ call := Call.RunSuccessOutput run.Executable, failure := some err }, [],
        by simp [Execute, RunSuccessOutput, hv, hp, record, errorOf, Call.isRun]⟩
    | ok out =>
      exact ⟨{ call := Call.RunSuccessOutput run.Executable, failure := none },
        [{ call := Call.LogrusInfo out, failure := none }],
        by simp [Execute, RunSuccessOutput, hv, hp, record, errorOf, Call.isRun]⟩
  | false =>
    cases hp : successOutput run.Executable
        (c.Process (h ++ [{ call := Call.Now, failure := none }]) run.Executable false) with
    | error err =>
      exact ⟨{ call := Call.RunSilentSuccessOutput run.Executable, failure := some err }, [],
        by simp [Execute, RunSilentSuccessOutput, hv, hp, record, errorOf, Call.isRun]⟩
    | ok out =>
      exact ⟨{ call := Call.RunSilentSuccessOutput run.Executable, failure := none }, [],
        by simp [Execute, RunSilentSuccessOutput, hv, hp, record, errorOf, Call.isRun]⟩

/-- C3: whatever the mode and whether the command succeeds or fails, `Execute`
reads the clock, runs the command and reads the clock again; `StartTime` is the
first reading and `EndTime` the second, so under a non-decreasing clock
`StartTime ≤ EndTime`. -/
theorem Execute_records_times (c : Collaborators) (opts : Options) (run : Run)
    (h : History) (hclock : NonDecreasing c.Now) :
    ∃ ev rest, ev.call.isRun = true ∧ (∀ e ∈ rest, e.call.isRun = false) ∧
      since h (Execute c opts run h).2.2 =
        { call := Call.Now, failure := none } :: ev ::
          { call := Call.Now, failure := none } :: rest ∧
      (Execute c opts run h).2.1.StartTime = c.Now h ∧
      (Execute c opts run h).2.1.EndTime =
        c.Now (h ++ [{ call := Call.Now, failure := none }, ev]) ∧
      (Execute c opts run h).2.1.StartTime ≤ (Execute c opts run h).2.1.EndTime := by
  obtain ⟨ev, rest, hrun, hrest, _, _, _, htrace, hstart, hend⟩ := Execute_history c opts run h
  refine ⟨ev, rest, hrun, hrest, ?_, hstart, hend, ?_⟩
  · rw [htrace, since_append]
  · rw [hstart, hend]
    exact hclock h _

/-- The clock of the friendly world never goes back. -/
theorem friendly_clock : NonDecreasing friendly.Now := by
  intro h more
  simp [friendly]

/-- Witness of C3: the step `true` in the friendly world, silent mode. -/
theorem Execute_records_times_witness :
    NonDecreasing friendly.Now ∧
    ∃ ev rest, ev.call.isRun = true ∧ (∀ e ∈ rest, e.call.isRun = false) ∧
      since [] (Execute friendly plainOpts (runOf trueStep "/work") []).2.2 =
        { call := Call.Now, failure := none } :: ev ::
          { call := Call.Now, failure := none } :: rest ∧
      (Execute friendly plainOpts (runOf trueStep "/work") []).2.1.StartTime =
        friendly.Now [] ∧
      (Execute friendly plainOpts (runOf trueStep "/work") []).2.1.EndTime =
        friendly.Now ([] ++ [{ call := Call.Now, failure := none }, ev]) ∧
      (Execute friendly plainOpts (runOf trueStep "/work") []).2.1.StartTime ≤
        (Execute friendly plainOpts (runOf trueStep "/work") []).2.1.EndTime :=
  ⟨friendly_clock,
    Execute_records_times friendly plainOpts (runOf trueStep "/work") [] friendly_clock⟩

/-- C4: when the command fails (it cannot start or exits non-zero) `Execute`
returns an error and leaves `run.Output` as it was; when the command succeeds
`Execute` returns no error and `run.Output` is the output the command
execution primitive returned. -/
theorem Execute_output (c : Collaborators) (opts : Options) (run : Run) (h : History) :
    ((c.Process (record h Call.Now none) run.Executable opts.Verbose).failed = true →
      (∃ cause,
        successOutput run.Executable
            (c.Process (record h Call.Now none) run.Executable opts.Verbose) =
          Except.error cause ∧
        (Execute c opts run h).1 = some (Errorf "executing run: " cause)) ∧
      (Execute c opts run h).2.1.Output = run.Output) ∧
    ((c.Process (record h Call.Now none) run.Executable opts.Verbose).failed = false →
      ∃ out,
        successOutput run.Executable
            (c.Process (record h Call.Now none) run.Executable opts.Verbose) =
          Except.ok out ∧
        (Execute c opts run h).1 = none ∧ (Execute c opts run h).2.1.Output = out) := by
  cases hv : opts.Verbose <;>
  cases hp : c.Process (record h Call.Now none) run.Executable _ with
  | startFailed cause =>
    simp [Execute, RunSuccessOutput, RunSilentSuccessOutput, hv, hp, successOutput,
      ProcessResult.failed]
  | exited status out =>
    by_cases hs : status = 0 <;>
    simp [Execute, RunSuccessOutput, RunSilentSuccessOutput, hv, hp, successOutput,
      ProcessResult.failed, hs]

/-- Witness of C4: `echo` exits 1 in the friendly world and `true` exits 0, and
in the hostile world no command can be started. -/
theorem Execute_output_witness :
    (Execute friendly plainOpts (runOf echoStep "/work") []).2.1.Output =
      (runOf echoStep "/work").Output ∧
    (Execute hostile explicitOpts (runOf echoStep "/work") []).2.1.Output =
      (runOf echoStep "/work").Output ∧
    ∃ out,
      successOutput (runOf trueStep "/work").Executable
          (friendly.Process (record [] Call.Now none) (runOf trueStep "/work").Executable
            plainOpts.Verbose) =
        Except.ok out ∧
      (Execute friendly plainOpts (runOf trueStep "/work") []).1 = none ∧
      (Execute friendly plainOpts (runOf trueStep "/work") []).2.1.Output = out :=
  ⟨((Execute_output friendly plainOpts (runOf echoStep "/work") []).1 (by decide)).2,
   ((Execute_output hostile explicitOpts (runOf echoStep "/work") []).1 (by decide)).2,
   (Execute_output friendly plainOpts (runOf trueStep "/work") []).2 (by decide)⟩

/-- Counterexample to C5: `echo` exits with status 1 in the friendly world,
`Execute` reports the failure, and the Run's `ExitCode` is still 0. -/
theorem Execute_exit_status_not_recorded :
    friendly.Process (record [] Call.Now none) (runOf echoStep "/work").Executable false =
      ProcessResult.exited 1 { Output := "", Error := "boom" } ∧
    (Execute friendly plainOpts (runOf echoStep "/work") []).1 ≠ none ∧
    (Execute friendly plainOpts (runOf echoStep "/work") []).2.1.ExitCode = 0 ∧
    (Execute friendly plainOpts (runOf echoStep "/work") []).2.1.ExitCode ≠ 1 := by
  decide

/-- C5, amended: `Execute` never writes the Run's `ExitCode` nor its `Status`:
whatever the command does, both keep the value they had before the call. -/
theorem Execute_keeps_ExitCode (c : Collaborators) (opts : Options) (run : Run)
    (h : History) :
    (Execute c opts run h).2.1.ExitCode = run.ExitCode ∧
    (Execute c opts run h).2.1.Status = run.Status := by
  unfold Execute
  constructor <;> (dsimp only; split <;> rfl)

/-! ## WriteAttestation -/

/-- The Run handed to `WriteAttestation` comes back as it was. -/
theorem WriteAttestation_run (c : Collaborators) (opts : Options) (run : Run)
    (h : History) : (WriteAttestation c opts run h).2.1 = run := by
  unfold WriteAttestation
  dsimp only
  split
  · rfl
  · split <;> rfl

/-- C10: `Execute`, on success and on failure, and `WriteAttestation` leave the
Run's command, parameters, environment and artifacts as they were; the Run
after `Execute` is the Run before it with `StartTime`, `EndTime` and `Output`
replaced, and `Output` is replaced only on success. -/
theorem Execute_WriteAttestation_frame (c : Collaborators) (opts : Options) (run : Run)
    (h : History) :
    ((Execute c opts run h).2.1.Command = run.Command ∧
      (Execute c opts run h).2.1.Params = run.Params ∧
      (Execute c opts run h).2.1.Environment = run.Environment ∧
      (Execute c opts run h).2.1.Artifacts = run.Artifacts ∧
      (Execute c opts run h).2.1 =
        { run with
          StartTime := (Execute c opts run h).2.1.StartTime
          EndTime := (Execute c opts run h).2.1.EndTime
          Output := (Execute c opts run h).2.1.Output } ∧
      ((Execute c opts run h).1 ≠ none → (Execute c opts run h).2.1.Output = run.Output)) ∧
    ((WriteAttestation c opts run h).2.1.Command = run.Command ∧
      (WriteAttestation c opts run h).2.1.Params = run.Params ∧
      (WriteAttestation c opts run h).2.1.Environment = run.Environment ∧
      (WriteAttestation c opts run h).2.1.Artifacts = run.Artifacts ∧
      (WriteAttestation c opts run h).2.1 = run) := by
  constructor
  · unfold Execute
    dsimp only
    split <;> simp
  · rw [WriteAttestation_run]
    simp

/-- Witness of C10: a failing and a succeeding command, then the attestation. -/
theorem Execute_WriteAttestation_frame_witness :
    (Execute friendly plainOpts (runOf echoStep "/work") []).1 ≠ none ∧
    (Execute friendly plainOpts (runOf echoStep "/work") []).2.1.Output =
      (runOf echoStep "/work").Output ∧
    (Execute friendly plainOpts (runOf trueStep "/work") []).2.1.Params =
      (runOf trueStep "/work").Params ∧
    (WriteAttestation friendly plainOpts (runOf trueStep "/work") []).2.1 =
      runOf trueStep "/work" :=
  ⟨by decide,
   (Execute_WriteAttestation_frame friendly plainOpts (runOf echoStep "/work") []).1.2.2.2.2.2
     (by decide),
   (Execute_WriteAttestation_frame friendly plainOpts (runOf trueStep "/work") []).1.2.1,
   (Execute_WriteAttestation_frame friendly plainOpts (runOf trueStep "/work") []).2.2.2.2.2⟩

/-- C8: a non-empty `opts.AttestationPath` is handed to the attestation writer
as it is and no temporary file is created; with an empty one exactly one
temporary file is created, with pattern `provenance-*.json`, and its name is
handed to the writer; when the creation fails an error is returned and the
writer is never invoked. -/
theorem WriteAttestation_destination (c : Collaborators) (opts : Options) (run : Run)
    (h : History) :
    (opts.AttestationPath ≠ "" →
      writerPaths (since h (WriteAttestation c opts run h).2.2) = [opts.AttestationPath] ∧
      tempCreations (since h (WriteAttestation c opts run h).2.2) = []) ∧
    (opts.AttestationPath = "" →
      (∀ f, c.CreateTemp h "" "provenance-*.json" = Except.ok f →
        tempCreations (since h (WriteAttestation c opts run h).2.2) =
          [("", "provenance-*.json")] ∧
        writerPaths (since h (WriteAttestation c opts run h).2.2) = [f.Name]) ∧
      (∀ err, c.CreateTemp h "" "provenance-*.json" = Except.error err →
        (WriteAttestation c opts run h).1 =
          some (Errorf "creating temp file to write attestation: " err) ∧
        writerPaths (since h (WriteAttestation c opts run h).2.2) = [] ∧
        since h (WriteAttestation c opts run h).2.2 =
          [{ call := Call.CreateTemp "" "provenance-*.json", failure := some err }])) := by
  refine ⟨fun hp => ?_, fun hp => ⟨fun f hf => ?_, fun err hf => ?_⟩⟩
  · cases hw : c.WriteAttestation h run opts.AttestationPath <;>
      simp [WriteAttestation, hp, hw, since, record, writerPaths, tempCreations]
  · cases hw : c.WriteAttestation
        (h ++ [{ call := Call.CreateTemp "" "provenance-*.json", failure := none },
          { call := Call.Debugf ("Writing attestation to temp file: " ++ f.Name),
            failure := none }]) run f.Name <;>
      simp [WriteAttestation, hp, hf, hw, since, record, writerPaths, tempCreations]
  · simp [WriteAttestation, hp, hf, since, record, writerPaths]

/-- Witness of C8: an explicit path, then no path in the friendly world and in
the hostile one. -/
theorem WriteAttestation_destination_witness :
    (writerPaths (since [] (WriteAttestation hostile explicitOpts (runOf echoStep "/d") []).2.2) =
        ["/out/att.json"] ∧
      tempCreations (since [] (WriteAttestation hostile explicitOpts (runOf echoStep "/d") []).2.2) =
        []) ∧
    (tempCreations (since [] (WriteAttestation friendly plainOpts (runOf echoStep "/d") []).2.2) =
        [("", "provenance-*.json")] ∧
      writerPaths (since [] (WriteAttestation friendly plainOpts (runOf echoStep "/d") []).2.2) =
        ["/tmp/provenance-1.json"]) ∧
    writerPaths (since [] (WriteAttestation hostile plainOpts (runOf echoStep "/d") []).2.2) = [] :=
  ⟨(WriteAttestation_destination hostile explicitOpts (runOf echoStep "/d") []).1 (by decide),
   ((WriteAttestation_destination friendly plainOpts (runOf echoStep "/d") []).2 rfl).1
      { Name := "/tmp/provenance-1.json" } rfl,
   (((WriteAttestation_destination hostile plainOpts (runOf echoStep "/d") []).2 rfl).2
      ioFailure rfl).2.1⟩

/-! ## Snapshot -/

theorem failure_of_mem_okSnapsFrom (i n : Nat) (e : Event) (he : e ∈ okSnapsFrom i n) :
    e.failure = none := by
  induction n generalizing i with
  | zero => simp [okSnapsFrom] at he
  | succ n ih =>
    simp only [okSnapsFrom, List.mem_cons] at he
    rcases he with rfl | he
    · rfl
    · exact ih _ he

theorem failures_okSnapsFrom (i n : Nat) : failures (okSnapsFrom i n) = 0 := by
  induction n generalizing i with
  | zero => simp [okSnapsFrom, failures]
  | succ n ih =>
    have := ih (i + 1)
    simp only [failures] at this
    simp [okSnapsFrom, failures, this]

theorem snapCalls_okSnapsFrom (i n j : Nat) :
    snapCalls (okSnapsFrom i n) j = if i ≤ j ∧ j < i + n then 1 else 0 := by
  induction n generalizing i with
  | zero =>
    have : ¬ (i ≤ j ∧ j < i) := by omega
    simp [okSnapsFrom, snapCalls, this]
  | succ n ih =>
    have h1 := ih (i + 1)
    simp only [snapCalls] at h1
    simp only [okSnapsFrom, snapCalls, List.countP_cons, h1, Call.Snap.injEq, decide_eq_true_eq]
    by_cases hij : i = j
    · subst hij
      have : ¬ (i + 1 ≤ i ∧ i < i + 1 + n) := by omega
      have h2 : i ≤ i ∧ i < i + (n + 1) := by omega
      simp [this, h2]
    · by_cases hr : i + 1 ≤ j ∧ j < i + 1 + n
      · have h2 : i ≤ j ∧ j < i + (n + 1) := by omega
        simp [hr, h2, hij]
      · have h2 : ¬ (i ≤ j ∧ j < i + (n + 1)) := by omega
        simp [hr, h2, hij]

/-- The loop stops at the first watcher whose `snap()` fails. -/
theorem snapshotFrom_failure (ws : List Watcher) (i : Nat) (h : History) (k : Nat)
    (w : Watcher) (cause : GoError) (hw : ws[k]? = some w)
    (hbefore : ∀ (j : Nat) (v : Watcher), j < k → ws[j]? = some v → v.Snap (h ++ okSnapsFrom i j) = none)
    (hfail : w.Snap (h ++ okSnapsFrom i k) = some cause) :
    snapshotFrom ws i h =
      (some (Errorf "snapshotting watcher: " cause),
        h ++ (okSnapsFrom i k ++ [{ call := Call.Snap (i + k), failure := some cause }])) := by
  induction ws generalizing i h k with
  | nil => simp at hw
  | cons x rest ih =>
    cases k with
    | zero =>
      simp only [List.getElem?_cons_zero, Option.some.injEq] at hw
      subst hw
      simp only [okSnapsFrom, List.append_nil] at hfail
      simp [snapshotFrom, hfail, record, okSnapsFrom]
    | succ k =>
      have hx : x.Snap h = none := by
        have := hbefore 0 x (Nat.succ_pos k) (by simp)
        simpa [okSnapsFrom] using this
      simp only [List.getElem?_cons_succ] at hw
      have hrec := ih (i + 1) (record h (Call.Snap i) none) k hw
        (fun j v hj hv => by
          have := hbefore (j + 1) v (Nat.succ_lt_succ hj) (by simpa using hv)
          simpa [okSnapsFrom, record] using this)
        (by simpa [okSnapsFrom, record] using hfail)
      simp only [snapshotFrom, hx, hrec]
      simp [record, okSnapsFrom, Nat.add_assoc, Nat.add_comm 1 k]

/-- The loop goes through all the watchers when no `snap()` fails. -/
theorem snapshotFrom_success (ws : List Watcher) (i : Nat) (h : History)
    (hall : ∀ (j : Nat) (v : Watcher), ws[j]? = some v → v.Snap (h ++ okSnapsFrom i j) = none) :
    snapshotFrom ws i h = (none, h ++ okSnapsFrom i ws.length) := by
  induction ws generalizing i h with
  | nil => simp [snapshotFrom, okSnapsFrom]
  | cons x rest ih =>
    have hx : x.Snap h = none := by
      have := hall 0 x (by simp)
      simpa [okSnapsFrom] using this
    have hrec := ih (i + 1) (record h (Call.Snap i) none)
      (fun j v hv => by
        have := hall (j + 1) v (by simpa using hv)
        simpa [okSnapsFrom, record] using this)
    simp only [snapshotFrom, hx, hrec]
    simp [record, okSnapsFrom]

/-- Every run of the loop is one of the two above. -/
theorem snapshotFrom_cases (ws : List Watcher) (i : Nat) (h : History) :
    ((∀ (j : Nat) (v : Watcher), ws[j]? = some v → v.Snap (h ++ okSnapsFrom i j) = none) ∧
      snapshotFrom ws i h = (none, h ++ okSnapsFrom i ws.length)) ∨
    (∃ k w cause, ws[k]? = some w ∧
      (∀ (j : Nat) (v : Watcher), j < k → ws[j]? = some v → v.Snap (h ++ okSnapsFrom i j) = none) ∧
      w.Snap (h ++ okSnapsFrom i k) = some cause ∧
      snapshotFrom ws i h =
        (some (Errorf "snapshotting watcher: " cause),
          h ++ (okSnapsFrom i k ++ [{ call := Call.Snap (i + k), failure := some cause }]))) := by
  by_cases hall : ∀ (j : Nat) (v : Watcher), ws[j]? = some v → v.Snap (h ++ okSnapsFrom i j) = none
  · exact Or.inl ⟨hall, snapshotFrom_success ws i h hall⟩
  · right
    have hex : ∃ k : Nat, ∃ v : Watcher, ws[k]? = some v ∧ v.Snap (h ++ okSnapsFrom i k) ≠ none := by
      by_contra hno
      apply hall
      intro j v hv
      by_contra hne
      exact hno ⟨j, v, hv, hne⟩
    classical
    let k := Nat.find hex
    obtain ⟨w, hw, hne⟩ := Nat.find_spec hex
    obtain ⟨cause, hcause⟩ := Option.ne_none_iff_exists'.mp hne
    have hbefore : ∀ (j : Nat) (v : Watcher), j < k → ws[j]? = some v → v.Snap (h ++ okSnapsFrom i j) = none := by
      intro j v hj hv
      by_contra hne2
      exact Nat.find_min hex hj ⟨v, hv, hne2⟩
    exact ⟨k, w, cause, hw, hbefore, hcause,
      snapshotFrom_failure ws i h k w cause hw hbefore hcause⟩

theorem snapCalls_append_single (t : List Event) (call : Call) (failure : Option GoError)
    (j : Nat) :
    snapCalls (t ++ [{ call := call, failure := failure }]) j =
      snapCalls t j + if call = Call.Snap j then 1 else 0 := by
  by_cases hc : call = Call.Snap j <;> simp [snapCalls, List.countP_append, hc]

/-- C2: `Snapshot` calls `snap()` on the watchers in list order.  If the watcher
at position `k` is the first whose `snap()` fails, `Snapshot` returns an error,
the calls made are one successful `snap()` for each of the positions before `k`,
in order, followed by the failed one, so every watcher before `k` was invoked
exactly once and no watcher after `k` was invoked.  If no `snap()` fails,
`Snapshot` succeeds and every watcher was invoked exactly once, in order. -/
theorem Snapshot_stops_at_first_failure (opts : Options) (ws : List Watcher) (h : History) :
    (∀ (k : Nat) (w : Watcher) (cause : GoError), ws[k]? = some w →
      (∀ (j : Nat) (v : Watcher), j < k → ws[j]? = some v →
        v.Snap (h ++ okSnaps j) = none) →
      w.Snap (h ++ okSnaps k) = some cause →
      (Snapshot opts ws h).1 ≠ none ∧
      since h (Snapshot opts ws h).2 =
        okSnaps k ++ [{ call := Call.Snap k, failure := some cause }] ∧
      (∀ j, j < k → snapCalls (since h (Snapshot opts ws h).2) j = 1) ∧
      snapCalls (since h (Snapshot opts ws h).2) k = 1 ∧
      (∀ j, k < j → snapCalls (since h (Snapshot opts ws h).2) j = 0)) ∧
    ((∀ (j : Nat) (v : Watcher), ws[j]? = some v → v.Snap (h ++ okSnaps j) = none) →
      (Snapshot opts ws h).1 = none ∧
      since h (Snapshot opts ws h).2 = okSnaps ws.length ∧
      (∀ j, j < ws.length → snapCalls (since h (Snapshot opts ws h).2) j = 1) ∧
      (∀ j, ws.length ≤ j → snapCalls (since h (Snapshot opts ws h).2) j = 0)) := by
  constructor
  · intro k w cause hw hbefore hfail
    have hrun := snapshotFrom_failure ws 0 h k w cause hw hbefore hfail
    simp only [Nat.zero_add] at hrun
    have hres : (Snapshot opts ws h).1 ≠ none := by simp [Snapshot, hrun]
    have hnew : since h (Snapshot opts ws h).2 =
        okSnapsFrom 0 k ++ [{ call := Call.Snap k, failure := some cause }] := by
      simp [Snapshot, hrun, since_append]
    rw [hnew]
    refine ⟨hres, rfl, ?_, ?_, ?_⟩
    · intro j hj
      have hne : ¬ (Call.Snap k = Call.Snap j) := by
        intro heq
        injection heq with heq
        omega
      rw [snapCalls_append_single, snapCalls_okSnapsFrom]
      simp [hj, hne]
    · rw [snapCalls_append_single, snapCalls_okSnapsFrom]
      simp
    · intro j hj
      have hne : ¬ (Call.Snap k = Call.Snap j) := by
        intro heq
        injection heq with heq
        omega
      have hnot : ¬ (j < k) := by omega
      rw [snapCalls_append_single, snapCalls_okSnapsFrom]
      simp [hnot, hne]
  · intro hall
    have hrun := snapshotFrom_success ws 0 h hall
    have hres : (Snapshot opts ws h).1 = none := by simp [Snapshot, hrun]
    have hnew : since h (Snapshot opts ws h).2 = okSnapsFrom 0 ws.length := by
      simp [Snapshot, hrun, since_append]
    rw [hnew]
    refine ⟨hres, rfl, ?_, ?_⟩
    · intro j hj
      rw [snapCalls_okSnapsFrom]
      simp [hj]
    · intro j hj
      have hnot : ¬ (j < ws.length) := by omega
      rw [snapCalls_okSnapsFrom]
      simp [hnot]

/-- Witness of C2: three watchers, the second fails; and three that all work. -/
theorem Snapshot_stops_at_first_failure_witness :
    ((Snapshot plainOpts [okWatcher, badWatcher, okWatcher] []).1 ≠ none ∧
      since [] (Snapshot plainOpts [okWatcher, badWatcher, okWatcher] []).2 =
        okSnaps 1 ++ [{ call := Call.Snap 1, failure := some ioFailure }] ∧
      (∀ j, j < 1 →
        snapCalls (since [] (Snapshot plainOpts [okWatcher, badWatcher, okWatcher] []).2) j = 1) ∧
      snapCalls (since [] (Snapshot plainOpts [okWatcher, badWatcher, okWatcher] []).2) 1 = 1 ∧
      (∀ j, 1 < j →
        snapCalls (since [] (Snapshot plainOpts [okWatcher, badWatcher, okWatcher] []).2) j = 0)) ∧
    ((Snapshot plainOpts [okWatcher, okWatcher, okWatcher] []).1 = none ∧
      since [] (Snapshot plainOpts [okWatcher, okWatcher, okWatcher] []).2 =
        okSnaps [okWatcher, okWatcher, okWatcher].length ∧
      (∀ j, j < [okWatcher, okWatcher, okWatcher].length →
        snapCalls (since [] (Snapshot plainOpts [okWatcher, okWatcher, okWatcher] []).2) j = 1) ∧
      (∀ j, [okWatcher, okWatcher, okWatcher].length ≤ j →
        snapCalls (since [] (Snapshot plainOpts [okWatcher, okWatcher, okWatcher] []).2) j = 0)) :=
  ⟨(Snapshot_stops_at_first_failure plainOpts [okWatcher, badWatcher, okWatcher] []).1
      1 badWatcher ioFailure rfl
      (fun j v hj hv => by
        obtain rfl : j = 0 := by omega
        simp only [List.getElem?_cons_zero, Option.some.injEq] at hv
        subst hv
        rfl)
      rfl,
   (Snapshot_stops_at_first_failure plainOpts [okWatcher, okWatcher, okWatcher] []).2
      (fun j v hv => by
        have hmem := List.getElem?_mem hv
        simp only [List.mem_cons, List.mem_singleton, List.not_mem_nil, or_false, or_self] at hmem
        subst hmem
        rfl)⟩

/-- Counterexample to C6: in a list of two watchers, whether the first or the
second is the one that fails with `ioFailure`, `Snapshot` returns the same
error; the position of the failed watcher is only in the calls made. -/
theorem Snapshot_error_hides_position :
    (Snapshot plainOpts [badWatcher, okWatcher] []).1 =
      (Snapshot plainOpts [okWatcher, badWatcher] []).1 ∧
    (Snapshot plainOpts [badWatcher, okWatcher] []).1 =
      some (Errorf "snapshotting watcher: " ioFailure) ∧
    since [] (Snapshot plainOpts [badWatcher, okWatcher] []).2 =
      [{ call := Call.Snap 0, failure := some ioFailure }] ∧
    since [] (Snapshot plainOpts [okWatcher, badWatcher] []).2 =
      [{ call := Call.Snap 0, failure := none },
       { call := Call.Snap 1, failure := some ioFailure }] := by
  decide

/-- C6, amended: an error returned by `Snapshot` is the error of the first
watcher whose `snap()` failed, wrapped with the fixed context
`snapshotting watcher: `; it carries the cause and nothing about which watcher
failed. -/
theorem Snapshot_error_wraps_cause (opts : Options) (ws : List Watcher) (h : History)
    (err : GoError) (herr : (Snapshot opts ws h).1 = some err) :
    ∃ k w cause, ws[k]? = some w ∧
      (∀ (j : Nat) (v : Watcher), j < k → ws[j]? = some v →
        v.Snap (h ++ okSnaps j) = none) ∧
      w.Snap (h ++ okSnaps k) = some cause ∧
      err = Errorf "snapshotting watcher: " cause ∧
      err.Unwrap = some cause ∧
      err.Error = "snapshotting watcher: " ++ cause.Error := by
  rcases snapshotFrom_cases ws 0 h with ⟨_, hrun⟩ | ⟨k, w, cause, hw, hbefore, hfail, hrun⟩
  · simp [Snapshot, hrun] at herr
  · simp only [Snapshot, hrun, Option.some.injEq] at herr
    subst herr
    exact ⟨k, w, cause, hw, hbefore, hfail, rfl, rfl, rfl⟩

/-- Witness of C6, amended: the second of two watchers fails. -/
theorem Snapshot_error_wraps_cause_witness :
    (Snapshot plainOpts [okWatcher, badWatcher] []).1 =
      some (Errorf "snapshotting watcher: " ioFailure) ∧
    ∃ k w cause, [okWatcher, badWatcher][k]? = some w ∧
      (∀ (j : Nat) (v : Watcher), j < k → [okWatcher, badWatcher][j]? = some v →
        v.Snap ([] ++ okSnaps j) = none) ∧
      w.Snap ([] ++ okSnaps k) = some cause ∧
      Errorf "snapshotting watcher: " ioFailure = Errorf "snapshotting watcher: " cause ∧
      (Errorf "snapshotting watcher: " ioFailure).Unwrap = some cause ∧
      (Errorf "snapshotting watcher: " ioFailure).Error =
        "snapshotting watcher: " ++ cause.Error :=
  ⟨rfl, Snapshot_error_wraps_cause plainOpts [okWatcher, badWatcher] [] _ rfl⟩

/-! ## Failure propagation in the four phases -/

theorem CreateRun_propagates (c : Collaborators) (opts : Options) (step : Step)
    (h : History) :
    Propagates (since h (CreateRun c opts step h).2) (errorOf (CreateRun c opts step h).1) := by
  by_cases hcwd : opts.CWD = ""
  · cases hg : c.Getwd h with
    | error err =>
      simp [Propagates, CreateRun, hcwd, hg, errorOf, since, record, errorContext,
        callCount, failures]
    | ok dir =>
      simp [Propagates, CreateRun, hcwd, hg, errorOf, since, record]
  · simp [Propagates, CreateRun, hcwd, errorOf, since, record]

theorem Snapshot_propagates (opts : Options) (ws : List Watcher) (h : History) :
    Propagates (since h (Snapshot opts ws h).2) (Snapshot opts ws h).1 := by
  rcases snapshotFrom_cases ws 0 h with ⟨_, hrun⟩ | ⟨k, w, cause, _, _, _, hrun⟩
  · simp only [Snapshot, hrun, since_append, Propagates]
    constructor
    · constructor
      · intro hsome
        simp at hsome
      · rintro ⟨e, he, hfail⟩
        rw [failure_of_mem_okSnapsFrom _ _ e he] at hfail
        simp at hfail
    · intro err herr
      simp at herr
  · simp only [Nat.zero_add] at hrun
    simp only [Snapshot, hrun, since_append, Propagates]
    constructor
    · constructor
      · intro _
        exact ⟨{ call := Call.Snap k, failure := some cause }, by simp, rfl⟩
      · intro _
        rfl
    · intro err herr
      simp only [Option.some.injEq] at herr
      refine ⟨{ call := Call.Snap k, failure := some cause }, cause, "snapshotting watcher: ",
        by simp, rfl, rfl, herr.symm, ?_, ?_⟩
      · have hcount := snapCalls_okSnapsFrom 0 k k
        simp only [snapCalls] at hcount
        simp [callCount, List.countP_append, hcount]
      · have hzero := failures_okSnapsFrom 0 k
        simp only [failures] at hzero
        simp [failures, List.countP_append, hzero]

theorem Execute_propagates (c : Collaborators) (opts : Options) (run : Run) (h : History) :
    Propagates (since h (Execute c opts run h).2.2) (Execute c opts run h).1 := by
  cases hv : opts.Verbose with
  | true =>
    cases hp : successOutput run.Executable
        (c.Process (h ++ [{ call := Call.Now, failure := none }]) run.Executable true) with
    | error err =>
      simp [Propagates, Execute, RunSuccessOutput, hv, hp, record, errorOf, since,
        errorContext, callCount, failures]
    | ok out =>
      simp [Propagates, Execute, RunSuccessOutput, hv, hp, record, errorOf, since]
  | false =>
    cases hp : successOutput run.Executable
        (c.Process (h ++ [{ call := Call.Now, failure := none }]) run.Executable false) with
    | error err =>
      simp [Propagates, Execute, RunSilentSuccessOutput, hv, hp, record, errorOf, since,
        errorContext, callCount, failures]
    | ok out =>
      simp [Propagates, Execute, RunSilentSuccessOutput, hv, hp, record, errorOf, since]

theorem WriteAttestation_propagates (c : Collaborators) (opts : Options) (run : Run)
    (h : History) :
    Propagates (since h (WriteAttestation c opts run h).2.2)
      (WriteAttestation c opts run h).1 := by
  by_cases hpath : opts.AttestationPath = ""
  · cases hf : c.CreateTemp h "" "provenance-*.json" with
    | error err =>
      simp [Propagates, WriteAttestation, hpath, hf, since, record, errorContext,
        callCount, failures]
    | ok f =>
      cases hw : c.WriteAttestation
        (h ++ [{ call := Call.CreateTemp "" "provenance-*.json", failure := none },
          { call := Call.Debugf ("Writing attestation to temp file: " ++ f.Name),
            failure := none }]) run f.Name <;>
      simp [Propagates, WriteAttestation, hpath, hf, hw, since, record, errorContext,
        callCount, failures]
  · cases hw : c.WriteAttestation h run opts.AttestationPath <;>
      simp [Propagates, WriteAttestation, hpath, hw, since, record, errorContext,
        callCount, failures]

/-- C9: each of `CreateRun`, `Snapshot`, `Execute` and `WriteAttestation`
returns an error exactly when one of the collaborator calls it made failed; the
error wraps the cause of that call with the context of the phase; the failed
call was made once and no other call of the phase failed. -/
theorem phases_propagate_failures (c : Collaborators) (opts : Options) (step : Step)
    (run : Run) (ws : List Watcher) (h : History) :
    Propagates (since h (CreateRun c opts step h).2) (errorOf (CreateRun c opts step h).1) ∧
    Propagates (since h (Snapshot opts ws h).2) (Snapshot opts ws h).1 ∧
    Propagates (since h (Execute c opts run h).2.2) (Execute c opts run h).1 ∧
    Propagates (since h (WriteAttestation c opts run h).2.2)
      (WriteAttestation c opts run h).1 :=
  ⟨CreateRun_propagates c opts step h, Snapshot_propagates opts ws h,
    Execute_propagates c opts run h, WriteAttestation_propagates c opts run h⟩

/-- Witness of C9: in the hostile world every phase fails with the error of
its collaborator behind the context of the phase. -/
theorem phases_propagate_failures_witness :
    (errorOf (CreateRun hostile plainOpts echoStep []).1 =
        some (Errorf "getting current directory: " ioFailure) ∧
      (Snapshot plainOpts [okWatcher, badWatcher] []).1 =
        some (Errorf "snapshotting watcher: " ioFailure) ∧
      (Execute hostile plainOpts (runOf echoStep "/d") []).1 =
        some (Errorf "executing run: " ioFailure) ∧
      (WriteAttestation hostile plainOpts (runOf echoStep "/d") []).1 =
        some (Errorf "creating temp file to write attestation: " ioFailure) ∧
      (WriteAttestation hostile explicitOpts (runOf echoStep "/d") []).1 =
        some (Errorf "writing attestation path: " ioFailure)) ∧
    (Propagates (since [] (CreateRun hostile plainOpts echoStep []).2)
        (errorOf (CreateRun hostile plainOpts echoStep []).1) ∧
      Propagates (since [] (Snapshot plainOpts [okWatcher, badWatcher] []).2)
        (Snapshot plainOpts [okWatcher, badWatcher] []).1 ∧
      Propagates (since [] (Execute hostile plainOpts (runOf echoStep "/d") []).2.2)
        (Execute hostile plainOpts (runOf echoStep "/d") []).1 ∧
      Propagates (since [] (WriteAttestation hostile plainOpts (runOf echoStep "/d") []).2.2)
        (WriteAttestation hostile plainOpts (runOf echoStep "/d") []).1) :=
  ⟨by decide,
    phases_propagate_failures hostile plainOpts echoStep (runOf echoStep "/d")
      [okWatcher, badWatcher] []⟩

end Tejolote
